import Mathlib

/-
Verification of the resilience and dispatch layer of the multi-ai-platform
repository: per-provider circuit breaker (src/error_handler.py), per-user
rate limiter (src/rate_limiter.py), usage tracking (src/usage_tracker.py)
and the dispatch orchestration in src/app.py (process_prompt).

The embedding is shallow and executable.  Python dicts that cross the
boundaries relevant to the claims are association lists of string keys;
exceptions are an explicit `Exc` type and fallible code returns `Except`.

A load-bearing fact of the source: src/error_handler.py calls
`time.time()` (lines 104 and 129) but the module never imports `time`, so
in the running program every evaluation of that expression raises
`NameError`.  The embedding models each evaluation of `time.time()` in
that module as raising that exception; src/rate_limiter.py does import
`time`, so its clock reads are modelled as an injected `now` value.
-/

namespace MultiAI

/-- Python values appearing in the dicts the dispatch layer handles. -/
inductive PVal where
  | s (v : String)
  | i (v : Int)
  | b (v : Bool)
deriving DecidableEq

/-- A Python dict with string keys, as used for provider results and
JSON responses. -/
abbrev Dict := List (String × PVal)

/-- Python `d.get(k, dflt)`. -/
def dictGet (d : Dict) (k : String) (dflt : PVal) : PVal :=
  match d.lookup k with
  | some v => v
  | none => dflt

/-- The exception kinds distinguished by handle_error in
src/error_handler.py, plus NameError (raised by the unbound `time` name)
and a catch-all. -/
inductive Exc where
  | nameError (msg : String)
  | requestException (msg : String)
  | valueError (msg : String)
  | keyError (msg : String)
  | other (msg : String)
deriving DecidableEq

/-- Embeds handle_error from src/error_handler.py lines 13-67: maps an
exception to a Flask (json, status code) pair.  `Timeout` is a subclass of
`RequestException` in the requests library, so the 504 branch of the
source is unreachable and is not modelled separately. -/
def handle_error (e : Exc) : Dict × Nat :=
  match e with
  | Exc.requestException m =>
    ([("error", PVal.s "API request failed"), ("message", PVal.s m),
      ("status", PVal.s "error")], 502)
  | Exc.valueError m =>
    ([("error", PVal.s "Validation error"), ("message", PVal.s m),
      ("status", PVal.s "error")], 400)
  | Exc.keyError m =>
    ([("error", PVal.s "Missing required field"),
      ("message", PVal.s ("Missing required field: " ++ m)),
      ("status", PVal.s "error")], 400)
  | _ =>
    ([("error", PVal.s "Internal server error"),
      ("message", PVal.s "An unexpected error occurred. Please try again later."),
      ("status", PVal.s "error")], 500)

/-- Embeds the CircuitBreaker state of src/error_handler.py lines 69-88.
`state` is one of "closed", "open", "half-open" exactly as in the source. -/
structure CircuitBreaker where
  name : String
  failure_threshold : Nat
  reset_timeout : Int
  failures : Nat
  state : String
  last_failure_time : Int
deriving DecidableEq

/-- CircuitBreaker.__init__ with the default arguments
(failure_threshold=5, reset_timeout=60), as used by src/app.py line 74-80. -/
def CircuitBreaker.init (name : String) : CircuitBreaker :=
  ⟨name, 5, 60, 0, "closed", 0⟩

/-- The dict returned by the fast-fail branch of CircuitBreaker.execute,
src/error_handler.py lines 109-113.  In the running code this return is
unreachable, because line 104 evaluates `time.time()` first and the module
never imports `time`. -/
def service_unavailable_result (name : String) : Dict :=
  [("error", PVal.s "Service unavailable"),
   ("message", PVal.s ("The " ++ name ++
     " service is currently unavailable. Please try again later.")),
   ("status", PVal.s "error")]

/-- Embeds CircuitBreaker.execute, src/error_handler.py lines 90-137.
`func` is the outcome of the wrapped zero-argument call: `Except.ok d`
when it returns the dict d, `Except.error e` when it raises e.  The result
is the breaker after the call, the returned value or raised exception, and
the number of times the wrapped call was invoked (0 or 1).

Control flow of the source: if state is "open", line 104 evaluates
`time.time()`, which raises NameError (`time` is not imported), so the
call raises without invoking `func` and without mutating the breaker.
Otherwise `func` is invoked once.  On success, state and counter are reset
only when the state was "half-open" (lines 119-122); a success in state
"closed" mutates nothing.  On failure, `self.failures` is incremented
(line 128) and then line 129 evaluates `time.time()`, raising NameError,
so `last_failure_time` and `state` are never updated and the NameError
propagates to the caller in place of the original exception. -/
def CircuitBreaker.execute (cb : CircuitBreaker) (func : Except Exc Dict) :
    CircuitBreaker × Except Exc Dict × Nat :=
  if cb.state = "open" then
    (cb, Except.error (Exc.nameError "name time is not defined"), 0)
  else
    match func with
    | Except.ok result =>
      if cb.state = "half-open" then
        ({ cb with state := "closed", failures := 0 }, Except.ok result, 1)
      else
        (cb, Except.ok result, 1)
    | Except.error _ =>
      ({ cb with failures := cb.failures + 1 },
        Except.error (Exc.nameError "name time is not defined"), 1)

/-- Folds a sequence of wrapped-call outcomes through a breaker,
tracking only the evolving breaker state. -/
def runCalls (cb : CircuitBreaker) : List (Except Exc Dict) → CircuitBreaker
  | [] => cb
  | f :: fs => runCalls (cb.execute f).1 fs

/-- A per-user window record of src/rate_limiter.py lines 51-55:
the entry stored in rate_limit_store. -/
structure RateRec where
  requests : Nat
  window_start : Int
deriving DecidableEq

/-- The in-memory rate_limit_store (a Python dict keyed by user id). -/
abbrev RateStore := List (Nat × RateRec)

/-- Writes key `uid` in the store (Python dict assignment). -/
def setStore : RateStore → Nat → RateRec → RateStore
  | [], uid, r => [(uid, r)]
  | (k, v) :: rest, uid, r =>
    if k = uid then (uid, r) :: rest else (k, v) :: setStore rest uid r

/-- Embeds get_user_tier, src/rate_limiter.py lines 83-104 (mock tiers). -/
def get_user_tier (user_id : Nat) : String :=
  if user_id = 1 then "free"
  else if user_id = 2 then "admin"
  else if user_id = 3 then "pro"
  else if user_id = 4 then "enterprise"
  else "free"

/-- The max_requests assignment of src/rate_limiter.py lines 37-48:
free 50, pro 500, enterprise 5000, every other tier (including "admin")
falls to the default branch with limit 10. -/
def max_requests_for (tier : String) : Nat :=
  if tier = "free" then 50
  else if tier = "pro" then 500
  else if tier = "enterprise" then 5000
  else 10

/-- time_window is 3600 seconds in every branch of lines 37-48. -/
def time_window : Int := 3600

/-- The lazy creation step of src/rate_limiter.py lines 51-55: the stored
record, or a fresh one (0 requests, window starting now) if the user has
none. -/
def storedOrFresh (store : RateStore) (uid : Nat) (now : Int) : RateRec :=
  match store.lookup uid with
  | none => RateRec.mk 0 now
  | some r => r

/-- The record rate_limit evaluates for the user after the lazy creation
(lines 51-55) and the window-reset check (lines 58-63): reset to a fresh
record when strictly more than time_window elapsed since window_start. -/
def effectiveRec (store : RateStore) (uid : Nat) (now : Int) : RateRec :=
  if now - (storedOrFresh store uid now).window_start > time_window
  then RateRec.mk 0 now
  else storedOrFresh store uid now

/-- Embeds the rate_limit decorator check, src/rate_limiter.py lines
29-79, up to the decision: returns the store after the call and whether
the request was admitted.  If the effective count is at least the tier
limit the request is rejected and the store keeps the (created or reset)
record unchanged (lines 66-71); otherwise the count is incremented and
the wrapped route runs (lines 74-79). -/
def rate_limit_check (store : RateStore) (uid : Nat) (now : Int) :
    RateStore × Bool :=
  if (effectiveRec store uid now).requests ≥ max_requests_for (get_user_tier uid) then
    (setStore store uid (effectiveRec store uid now), false)
  else
    (setStore store uid
      (RateRec.mk ((effectiveRec store uid now).requests + 1)
        ((effectiveRec store uid now).window_start)), true)

/-- Iterates rate_limit_check over a list of (user, clock) request events. -/
def run_requests (store : RateStore) : List (Nat × Int) → RateStore
  | [] => store
  | (uid, now) :: rest => run_requests (rate_limit_check store uid now).1 rest

/-- A row of the usage table written by track_usage
(src/usage_tracker.py lines 37-48). -/
structure UsageRow where
  user_id : Nat
  provider : String
  endpoint : String
  response_time : PVal
  status : PVal
deriving DecidableEq

/-- Embeds track_usage, src/usage_tracker.py lines 20-56.  `ins` is the
outcome of the sqlite connect/insert/commit: `Except.ok ()` when the
insert succeeds (the row is appended to the usage table), `Except.error e`
when any step raises.  The whole body is wrapped in
`try ... except Exception` whose handler only logs, so the function
returns normally in both cases. -/
def track_usage (db : List UsageRow) (ins : Except Exc Unit) (row : UsageRow) :
    Except Exc (List UsageRow) :=
  match ins with
  | Except.ok _ => Except.ok (db ++ [row])
  | Except.error _ => Except.ok db

/-- The provider registry PROVIDERS of src/app.py lines 65-71. -/
def PROVIDERS : List String := ["openai", "anthropic", "google", "hunter", "github"]

/-- The mutable application state shared by requests: one breaker per
provider name (src/app.py lines 74-80), the rate-limit store and the
usage table. -/
structure AppState where
  breakers : String → CircuitBreaker
  rate_limit_store : RateStore
  usage_db : List UsageRow

/-- Updates one named breaker in the registry. -/
def setBreaker (b : String → CircuitBreaker) (n : String)
    (cb : CircuitBreaker) : String → CircuitBreaker :=
  fun m => if m = n then cb else b m

/-- Response of src/app.py lines 102-105 (monthly usage limit exceeded). -/
def usage_limit_response : Dict × Nat :=
  ([("error", PVal.s "Usage limit exceeded"),
    ("message", PVal.s "You have exceeded your usage limit for this month. Please upgrade your plan or wait until next month.")],
   429)

/-- Response of src/rate_limiter.py lines 68-71 (rate limit exceeded). -/
def rate_limit_response (tier : String) : Dict × Nat :=
  ([("error", PVal.s "Rate limit exceeded"),
    ("message", PVal.s ("You have exceeded the rate limit of " ++
      toString (max_requests_for tier) ++
      " requests per hour for your " ++ tier ++ " tier."))],
   429)

/-- Response of src/app.py line 112 (missing prompt). -/
def no_prompt_response : Dict × Nat :=
  ([("error", PVal.s "No prompt provided")], 400)

/-- Response of src/app.py line 115 (unknown provider). -/
def unknown_provider_response (pn : String) : Dict × Nat :=
  ([("error", PVal.s ("Provider " ++ pn ++ " not supported"))], 400)

/-- The track-then-return tail of process_prompt, src/app.py lines
132-141: writes the usage row (provider argument is the originally
requested provider name, endpoint "process", response_time and status
read from the result dict with defaults 0 and "error") and returns the
result as JSON with HTTP 200.  If track_usage raised (it cannot), the
outer handler of lines 143-145 would answer. -/
def finish_track (st : AppState) (uid : Nat) (provider_name : String)
    (result : Dict) (ins : Except Exc Unit) (calls : List String) :
    AppState × (Dict × Nat) × List String :=
  match track_usage st.usage_db ins
      (UsageRow.mk uid provider_name "process"
        (dictGet result "response_time" (PVal.i 0))
        (dictGet result "status" (PVal.s "error"))) with
  | Except.ok db2 => ({ st with usage_db := db2 }, (result, 200), calls)
  | Except.error exc => (st, handle_error exc, calls)

/-- Embeds the body of process_prompt, src/app.py lines 97-145 (after
authentication and after the rate_limit decorator admitted the request).
`usage_ok` is the value of check_usage_limits (src/usage_tracker.py
lines 274-313); `prov n` is the outcome of provider n's process(prompt)
call; `ins` is the outcome of the usage insert.  The third component of
the result lists, in order, the providers whose wrapped call was invoked.

Control flow of the source: the requested provider's breaker executes
the call (line 123); if that raises and the provider is not "openai",
the openai breaker executes the openai call (lines 124-128); if that
also raises, or the requested provider was "openai" (line 130), the
exception reaches the outer handler (lines 143-145) and handle_error
answers, in which case no usage row is written. -/
def process_prompt_body (st : AppState) (uid : Nat) (usage_ok : Bool)
    (prompt : Option String) (provider_name : String)
    (prov : String → Except Exc Dict) (ins : Except Exc Unit) :
    AppState × (Dict × Nat) × List String :=
  if usage_ok = false then (st, usage_limit_response, [])
  else
    match prompt with
    | none => (st, no_prompt_response, [])
    | some _ =>
      if provider_name ∈ PROVIDERS then
        let e1 := (st.breakers provider_name).execute (prov provider_name)
        let st1 := { st with breakers := setBreaker st.breakers provider_name e1.1 }
        let calls1 := if e1.2.2 = 0 then ([] : List String) else [provider_name]
        match e1.2.1 with
        | Except.ok result => finish_track st1 uid provider_name result ins calls1
        | Except.error exc =>
          if provider_name = "openai" then
            (st1, handle_error exc, calls1)
          else
            let e2 := (st1.breakers "openai").execute (prov "openai")
            let st2 := { st1 with breakers := setBreaker st1.breakers "openai" e2.1 }
            let calls2 := calls1 ++ (if e2.2.2 = 0 then ([] : List String) else ["openai"])
            match e2.2.1 with
            | Except.ok result => finish_track st2 uid provider_name result ins calls2
            | Except.error exc2 => (st2, handle_error exc2, calls2)
      else (st, unknown_provider_response provider_name, [])

/-- One full request through the /api/process route: the rate_limit
decorator (src/rate_limiter.py) runs first — it lazily creates, resets
and increments the user's window record — and only if it admits the
request does the process_prompt body (including the check_usage_limits
gate) run. -/
def handle_process (st : AppState) (uid : Nat) (now : Int) (usage_ok : Bool)
    (prompt : Option String) (provider_name : String)
    (prov : String → Except Exc Dict) (ins : Except Exc Unit) :
    AppState × (Dict × Nat) × List String :=
  let rl := rate_limit_check st.rate_limit_store uid now
  let st1 := { st with rate_limit_store := rl.1 }
  if rl.2 then process_prompt_body st1 uid usage_ok prompt provider_name prov ins
  else (st1, rate_limit_response (get_user_tier uid), [])

/-! ## Helper lemmas about CircuitBreaker.execute -/

/-- An open breaker raises NameError at the unbound `time` name: no
invocation, no mutation. -/
theorem execute_open_eq (cb : CircuitBreaker) (f : Except Exc Dict)
    (h : cb.state = "open") :
    cb.execute f = (cb, Except.error (Exc.nameError "name time is not defined"), 0) := by
  simp [CircuitBreaker.execute, h]

/-- A closed breaker passes a successful call through unchanged. -/
theorem execute_closed_ok_eq (cb : CircuitBreaker) (d : Dict)
    (h : cb.state = "closed") :
    cb.execute (Except.ok d) = (cb, Except.ok d, 1) := by
  simp [CircuitBreaker.execute, h]

/-- A non-open breaker whose wrapped call raises increments the failure
counter and then raises NameError from line 129 of src/error_handler.py. -/
theorem execute_fail_eq (cb : CircuitBreaker) (e : Exc)
    (h : ¬ cb.state = "open") :
    cb.execute (Except.error e) =
      ({ cb with failures := cb.failures + 1 },
       Except.error (Exc.nameError "name time is not defined"), 1) := by
  simp [CircuitBreaker.execute, h]

/-- Every exception escaping execute is the NameError from the unbound
`time` name. -/
theorem execute_error_is_nameError (cb : CircuitBreaker) (f : Except Exc Dict)
    (e : Exc) (h : (cb.execute f).2.1 = Except.error e) :
    e = Exc.nameError "name time is not defined" := by
  unfold CircuitBreaker.execute at h
  split at h
  · exact (Except.error.inj h.symm)
  · split at h
    · split at h
      · exact absurd h (by simp)
      · exact absurd h (by simp)
    · exact (Except.error.inj h.symm)

/-- A closed breaker stays closed under execute: the only assignments to
`self.state` in the source are on the open branch (line 106, unreachable
past the NameError), the half-open success branch (line 121), and the
threshold branch (line 134, unreachable past the NameError of line 129). -/
theorem execute_preserves_closed (cb : CircuitBreaker) (f : Except Exc Dict)
    (h : cb.state = "closed") : ((cb.execute f).1).state = "closed" := by
  cases f <;> simp [CircuitBreaker.execute, h]

/-- From a closed breaker, any sequence of call outcomes leaves the
breaker closed. -/
theorem runCalls_closed (cb : CircuitBreaker) (fs : List (Except Exc Dict))
    (h : cb.state = "closed") : (runCalls cb fs).state = "closed" := by
  induction fs generalizing cb with
  | nil => simpa [runCalls] using h
  | cons f fs ih =>
    rw [runCalls]
    exact ih _ (execute_preserves_closed cb f h)

/-! ## Claims about the circuit breaker alone -/

/-- Claim C2, counterexample: a breaker in state "closed" with
consecutiveFailures = 1 whose wrapped call succeeds still has
consecutiveFailures = 1, not 0, after execute returns (the source resets
the counter only on the half-open success branch, lines 119-122). -/
theorem c2_counterexample :
    (CircuitBreaker.mk "openai" 5 60 1 "closed" 0).state = "closed" ∧
    ((CircuitBreaker.mk "openai" 5 60 1 "closed" 0).execute
        (Except.ok [("status", PVal.s "success")])).1.failures = 1 ∧
    ¬ ((CircuitBreaker.mk "openai" 5 60 1 "closed" 0).execute
        (Except.ok [("status", PVal.s "success")])).1.failures = 0 := by
  refine ⟨rfl, rfl, by decide⟩

/-- Claim C2 (amended): a success while Closed leaves the breaker — in
particular consecutiveFailures — completely unchanged; the counter is
reset to 0 (with a transition to Closed) only by a success while
HalfOpen. -/
theorem c2_theorem (cb : CircuitBreaker) (d : Dict) :
    (cb.state = "closed" → cb.execute (Except.ok d) = (cb, Except.ok d, 1)) ∧
    (cb.state = "half-open" →
      (cb.execute (Except.ok d)).1.failures = 0 ∧
      (cb.execute (Except.ok d)).1.state = "closed") := by
  constructor
  · intro h
    simp [CircuitBreaker.execute, h]
  · intro h
    simp [CircuitBreaker.execute, h]

/-- Claim C2 witness: the amended theorem applied to a concrete closed
breaker with one recorded failure and a concrete successful call. -/
theorem c2_witness :
    (CircuitBreaker.mk "google" 5 60 1 "closed" 0).execute
        (Except.ok [("status", PVal.s "success")]) =
      (CircuitBreaker.mk "google" 5 60 1 "closed" 0,
       Except.ok [("status", PVal.s "success")], 1) :=
  (c2_theorem (CircuitBreaker.mk "google" 5 60 1 "closed" 0)
    [("status", PVal.s "success")]).1 rfl

/-- Claim C6, counterexample: a breaker in state "open" with
lastFailureAt = 0 and resetTimeout = 60, i.e. timeout not elapsed at any
small clock value, does not return the unavailable outcome: execute
raises NameError (src/error_handler.py line 104 reads the unbound name
`time`), and no call — early or late — ever transitions it to
"half-open". -/
theorem c6_counterexample :
    ((CircuitBreaker.mk "anthropic" 5 60 5 "open" 0).execute
        (Except.ok [("text", PVal.s "hi")])) =
      (CircuitBreaker.mk "anthropic" 5 60 5 "open" 0,
       Except.error (Exc.nameError "name time is not defined"), 0) ∧
    ((CircuitBreaker.mk "anthropic" 5 60 5 "open" 0).execute
        (Except.ok [("text", PVal.s "hi")])).2.1 ≠
      Except.ok (service_unavailable_result "anthropic") := by
  constructor
  · rfl
  · simp [CircuitBreaker.execute]

/-- Claim C6 (amended): for every breaker in state Open, every call to
execute — at every clock value, elapsed or not, since the module cannot
read the clock at all — raises NameError without invoking the wrapped
function and without mutating the breaker; it never returns the
unavailable outcome and never transitions to HalfOpen. -/
theorem c6_theorem (cb : CircuitBreaker) (f : Except Exc Dict)
    (h : cb.state = "open") :
    cb.execute f =
      (cb, Except.error (Exc.nameError "name time is not defined"), 0) := by
  simp [CircuitBreaker.execute, h]

/-- Claim C6 witness: the amended theorem at a concrete open breaker. -/
theorem c6_witness :
    ((CircuitBreaker.mk "google" 5 60 6 "open" 100).execute
        (Except.error (Exc.other "boom"))) =
      (CircuitBreaker.mk "google" 5 60 6 "open" 100,
       Except.error (Exc.nameError "name time is not defined"), 0) :=
  c6_theorem (CircuitBreaker.mk "google" 5 60 6 "open" 100)
    (Except.error (Exc.other "boom")) rfl

/-- Claim C7: the code never performs the Closed→Open transition.  From
the initial breaker state every sequence of call outcomes leaves the
state "closed" (first conjunct), because on each failure line 129 of
src/error_handler.py raises NameError before line 134 can set the state;
in particular five consecutive failures of a fresh default breaker
(failureThreshold = 5) leave it closed with failures = 5, where the claim
and the spec require the transition to Open (second conjunct). -/
theorem c7_theorem :
    (∀ (n : String) (fs : List (Except Exc Dict)),
      (runCalls (CircuitBreaker.init n) fs).state = "closed") ∧
    (runCalls (CircuitBreaker.init "openai")
        (List.replicate 5 (Except.error (Exc.other "boom")))).state = "closed" ∧
    (runCalls (CircuitBreaker.init "openai")
        (List.replicate 5 (Except.error (Exc.other "boom")))).failures = 5 := by
  refine ⟨fun n fs => runCalls_closed _ _ rfl, by decide, by decide⟩

/-- Claim C9: a breaker in state Open does not return the ordinary
service-unavailable result dict of src/error_handler.py lines 109-113 —
it raises NameError (line 104 reads the unbound name `time`), so a caller
that detects provider failure by catching exceptions takes its exception
path instead of receiving a returned value. -/
theorem c9_theorem :
    ((CircuitBreaker.mk "github" 5 60 7 "open" 10).execute
        (Except.ok [("text", PVal.s "hi")])) =
      (CircuitBreaker.mk "github" 5 60 7 "open" 10,
       Except.error (Exc.nameError "name time is not defined"), 0) ∧
    (∀ d : Dict, ((CircuitBreaker.mk "github" 5 60 7 "open" 10).execute
        (Except.ok [("text", PVal.s "hi")])).2.1 ≠ Except.ok d) := by
  constructor
  · rfl
  · intro d
    simp [CircuitBreaker.execute]

/-! ## Helper lemmas about the rate limiter store -/

/-- Looking up the key just written returns the written record. -/
theorem lookup_setStore_self (s : RateStore) (uid : Nat) (r : RateRec) :
    (setStore s uid r).lookup uid = some r := by
  induction s with
  | nil => simp [setStore, List.lookup]
  | cons p rest ih =>
    obtain ⟨k, v⟩ := p
    by_cases hk : k = uid
    · subst hk
      simp [setStore, List.lookup]
    · have hb : (uid == k) = false := beq_eq_false_iff_ne.mpr (Ne.symm hk)
      simp [setStore, hk, List.lookup, hb, ih]

/-- Writing one key leaves every other key's lookup unchanged. -/
theorem lookup_setStore_other (s : RateStore) (uid u : Nat) (r : RateRec)
    (h : u ≠ uid) : (setStore s uid r).lookup u = s.lookup u := by
  have hb : (u == uid) = false := beq_eq_false_iff_ne.mpr h
  induction s with
  | nil => simp [setStore, List.lookup, hb]
  | cons p rest ih =>
    obtain ⟨k, v⟩ := p
    by_cases hk : k = uid
    · subst hk
      simp [setStore, List.lookup, hb]
    · simp [setStore, hk, List.lookup, ih]

/-- The requests count stored for a user (0 when no record exists). -/
def reqsOf (store : RateStore) (u : Nat) : Nat :=
  match store.lookup u with
  | none => 0
  | some r => r.requests

/-- Every branch of the tier table is capped by 5000. -/
theorem max_requests_le (t : String) : max_requests_for t ≤ 5000 := by
  unfold max_requests_for
  split
  · omega
  · split
    · omega
    · split <;> omega

/-- Every branch of the tier table grants a positive limit. -/
theorem max_requests_pos (t : String) : 0 < max_requests_for t := by
  unfold max_requests_for
  split
  · omega
  · split
    · omega
    · split <;> omega

/-- The record the limiter evaluates never counts more requests than the
stored one. -/
theorem effectiveRec_le (store : RateStore) (uid : Nat) (now : Int) (m : Nat)
    (h : reqsOf store uid ≤ m) :
    (effectiveRec store uid now).requests ≤ m := by
  have hs : (storedOrFresh store uid now).requests ≤ m := by
    unfold storedOrFresh
    unfold reqsOf at h
    cases hl : store.lookup uid with
    | none => simp
    | some r =>
      rw [hl] at h
      simpa using h
  unfold effectiveRec
  split
  · exact Nat.zero_le m
  · exact hs

/-- One rate_limit_check preserves the per-user bound
`requests ≤ max_requests_for tier` for every user. -/
theorem rate_limit_check_preserves (store : RateStore) (uid : Nat) (now : Int)
    (u : Nat) (h : reqsOf store u ≤ max_requests_for (get_user_tier u)) :
    reqsOf (rate_limit_check store uid now).1 u ≤
      max_requests_for (get_user_tier u) := by
  by_cases hu : u = uid
  · subst hu
    have hle := effectiveRec_le store u now _ h
    unfold rate_limit_check
    split
    · simpa [reqsOf, lookup_setStore_self] using hle
    · rename_i hlt
      simp only [reqsOf, lookup_setStore_self]
      omega
  · unfold rate_limit_check
    split
    · simpa [reqsOf, lookup_setStore_other _ _ _ _ hu] using h
    · simpa [reqsOf, lookup_setStore_other _ _ _ _ hu] using h

/-- From any store satisfying the per-user bound, any request trace keeps
satisfying it. -/
theorem run_requests_inv (steps : List (Nat × Int)) (store : RateStore)
    (h : ∀ u, reqsOf store u ≤ max_requests_for (get_user_tier u)) :
    ∀ u, reqsOf (run_requests store steps) u ≤
      max_requests_for (get_user_tier u) := by
  induction steps generalizing store with
  | nil => simpa [run_requests] using h
  | cons p rest ih =>
    obtain ⟨uid, now⟩ := p
    rw [run_requests]
    exact ih _ (fun u => rate_limit_check_preserves _ _ _ _ (h u))

/-! ## Claims about the rate limiter -/

/-- Claim C5: no tier bypasses the counter.  First conjunct: for every
user (hence every tier the mock resolver can produce) a stored count of
5000 in a fresh window is rejected, so no tier always admits — every
branch of the tier table (free 50, pro 500, enterprise 5000, default 10)
is a finite cap.  Second conjunct: an admitted call always mutates the
stored state (a fresh user gets a record written).  Third conjunct: user
2, whose tier is "admin" and whom the source comment at
src/rate_limiter.py line 98 says bypasses rate limiting, is rejected at
10 requests — the "admin" tier falls to the default branch. -/
theorem c5_theorem :
    (∀ (uid : Nat) (now : Int),
      (rate_limit_check [(uid, RateRec.mk 5000 now)] uid now).2 = false) ∧
    (∀ (uid : Nat) (now : Int), (rate_limit_check [] uid now).1 ≠ []) ∧
    (rate_limit_check [(2, RateRec.mk 10 0)] 2 0).2 = false := by
  refine ⟨?_, ?_, by decide⟩
  · intro uid now
    have he : effectiveRec [(uid, RateRec.mk 5000 now)] uid now =
        RateRec.mk 5000 now := by
      unfold effectiveRec storedOrFresh
      simp [List.lookup, time_window]
    have hpos : (RateRec.mk 5000 now).requests ≥
        max_requests_for (get_user_tier uid) := by
      simpa using max_requests_le (get_user_tier uid)
    unfold rate_limit_check
    rw [he, if_pos hpos]
  · intro uid now
    have he : effectiveRec [] uid now = RateRec.mk 0 now := by
      unfold effectiveRec storedOrFresh
      simp [List.lookup, time_window]
    have hneg : ¬ ((RateRec.mk 0 now).requests ≥
        max_requests_for (get_user_tier uid)) := by
      simp only [ge_iff_le, not_le]
      simpa using max_requests_pos (get_user_tier uid)
    unfold rate_limit_check
    rw [he, if_neg hneg]
    simp [setStore]

/-- Claim C8: the window invariant of the rate limiter.  First conjunct:
starting from the empty store, after any trace of requests every user's
stored requestsInWindow is at most the maxRequests of their tier.  Second
conjunct: when the evaluated record's count has reached the limit the
request is rejected and the store keeps that record unchanged (no
increment).  Third conjunct: below the limit the count is incremented by
exactly one and the request admitted. -/
theorem c8_theorem :
    (∀ (steps : List (Nat × Int)) (u : Nat),
      reqsOf (run_requests [] steps) u ≤ max_requests_for (get_user_tier u)) ∧
    (∀ (store : RateStore) (uid : Nat) (now : Int),
      (effectiveRec store uid now).requests ≥ max_requests_for (get_user_tier uid) →
        rate_limit_check store uid now =
          (setStore store uid (effectiveRec store uid now), false)) ∧
    (∀ (store : RateStore) (uid : Nat) (now : Int),
      (effectiveRec store uid now).requests < max_requests_for (get_user_tier uid) →
        rate_limit_check store uid now =
          (setStore store uid
            (RateRec.mk ((effectiveRec store uid now).requests + 1)
              ((effectiveRec store uid now).window_start)), true)) := by
  refine ⟨?_, ?_, ?_⟩
  · intro steps u
    exact run_requests_inv steps [] (by intro u2; simp [reqsOf, List.lookup]) u
  · intro store uid now h
    unfold rate_limit_check
    rw [if_pos h]
  · intro store uid now h
    unfold rate_limit_check
    rw [if_neg (by omega)]

/-- Claim C8 witness: the reject clause at a full free-tier window and
the admit clause for a fresh user, at concrete inputs. -/
theorem c8_witness :
    rate_limit_check [(1, RateRec.mk 50 0)] 1 0 =
      (setStore [(1, RateRec.mk 50 0)] 1 (effectiveRec [(1, RateRec.mk 50 0)] 1 0),
       false) ∧
    rate_limit_check [] 2 7 =
      (setStore [] 2
        (RateRec.mk ((effectiveRec [] 2 7).requests + 1)
          ((effectiveRec [] 2 7).window_start)), true) :=
  ⟨c8_theorem.2.1 [(1, RateRec.mk 50 0)] 1 0 (by decide),
   c8_theorem.2.2 [] 2 7 (by decide)⟩

/-! ## Helper lemmas about the dispatch pipeline -/

/-- A user with no window record is always admitted by the limiter, and
comes out with a fresh record counting this request. -/
theorem rate_admit_fresh (store : RateStore) (uid : Nat) (now : Int)
    (h : store.lookup uid = none) :
    rate_limit_check store uid now =
      (setStore store uid (RateRec.mk 1 now), true) := by
  have he : effectiveRec store uid now = RateRec.mk 0 now := by
    unfold effectiveRec storedOrFresh
    rw [h]
    simp [time_window]
  have hneg : ¬ ((RateRec.mk 0 now).requests ≥
      max_requests_for (get_user_tier uid)) := by
    simp only [ge_iff_le, not_le]
    simpa using max_requests_pos (get_user_tier uid)
  unfold rate_limit_check
  rw [he, if_neg hneg]

/-- handle_error never answers 200. -/
theorem handle_error_code (e : Exc) : (handle_error e).2 ≠ 200 := by
  cases e <;> simp [handle_error]

/-- The response and invocation list of the track-and-return tail do not
depend on the outcome of the usage insert. -/
theorem finish_track_resp (st : AppState) (uid : Nat) (pn : String)
    (result : Dict) (ins : Except Exc Unit) (calls : List String) :
    (finish_track st uid pn result ins calls).2 = ((result, 200), calls) := by
  cases ins <;> simp [finish_track, track_usage]

/-- The response and invocation list of the whole request do not depend
on the outcome of the usage insert. -/
theorem handle_process_resp_ins (st : AppState) (uid : Nat) (now : Int)
    (usage_ok : Bool) (prompt : Option String) (pn : String)
    (prov : String → Except Exc Dict) (ins1 ins2 : Except Exc Unit) :
    (handle_process st uid now usage_ok prompt pn prov ins1).2 =
      (handle_process st uid now usage_ok prompt pn prov ins2).2 := by
  have hbody : ∀ (stb : AppState),
      (process_prompt_body stb uid usage_ok prompt pn prov ins1).2 =
        (process_prompt_body stb uid usage_ok prompt pn prov ins2).2 := by
    intro stb
    cases usage_ok with
    | false => simp [process_prompt_body]
    | true =>
      cases prompt with
      | none => simp [process_prompt_body]
      | some p =>
        by_cases hpn : pn ∈ PROVIDERS
        · simp only [process_prompt_body, if_pos hpn, Bool.true_eq_false,
            if_false, ite_false]
          cases h1 : ((stb.breakers pn).execute (prov pn)).2.1 with
          | ok result => simp [finish_track_resp]
          | error exc =>
            by_cases hpo : pn = "openai"
            · simp [hpo]
            · simp only [if_neg hpo]
              cases h2 : (((setBreaker stb.breakers pn
                  ((stb.breakers pn).execute (prov pn)).1) "openai").execute
                    (prov "openai")).2.1 with
              | ok result => simp [finish_track_resp]
              | error exc2 => simp
        · simp [process_prompt_body, hpn]
  unfold handle_process
  by_cases hrl : (rate_limit_check st.rate_limit_store uid now).2 = true
  · simpa [hrl] using hbody _
  · simp [hrl]

/-! ## Claims about dispatch orchestration: usage gate and recording -/

/-- Claim C4, counterexample: with the monthly usage gate reporting
over-limit, dispatch does mutate the rate-limiter record.  User 1 starts
with no record; the request is answered with the usage-limit error, yet
afterwards the store holds a record counting 1 request (the rate_limit
decorator runs, creates and increments it before the usage check).
Moreover a user who is over the monthly limit and also rate-limited
(50 requests already counted, free tier) receives the rate-limit error,
not the usage error: the rate-limiter check runs first, not second. -/
theorem c4_counterexample :
    (handle_process (AppState.mk (fun n => CircuitBreaker.init n) [] []) 1 0
        false (some "hi") "openai" (fun _ => Except.ok []) (Except.ok ())).2.1 =
      usage_limit_response ∧
    (handle_process (AppState.mk (fun n => CircuitBreaker.init n) [] []) 1 0
        false (some "hi") "openai" (fun _ => Except.ok []) (Except.ok ())).1.rate_limit_store =
      [(1, RateRec.mk 1 0)] ∧
    (handle_process
        (AppState.mk (fun n => CircuitBreaker.init n) [(1, RateRec.mk 50 0)] [])
        1 0 false (some "hi") "openai" (fun _ => Except.ok [])
        (Except.ok ())).2.1 =
      rate_limit_response "free" := by
  refine ⟨by decide, by decide, by decide⟩

/-- Claim C4 (amended): when the usage gate reports the user over the
monthly limit and the rate limiter admits the request, dispatch fails
with the usage-limit error; no circuit breaker is mutated, no provider
call is attempted and no usage row is written, but the user's
rate-limiter record has already been created/reset/incremented by the
rate_limit decorator, which runs before the usage check. -/
theorem c4_theorem (st : AppState) (uid : Nat) (now : Int)
    (prompt : Option String) (pn : String)
    (prov : String → Except Exc Dict) (ins : Except Exc Unit)
    (hadm : (rate_limit_check st.rate_limit_store uid now).2 = true) :
    handle_process st uid now false prompt pn prov ins =
      ({ st with
          rate_limit_store := (rate_limit_check st.rate_limit_store uid now).1 },
       usage_limit_response, []) := by
  unfold handle_process
  rw [if_pos hadm]
  simp [process_prompt_body]

/-- Claim C4 witness: the amended theorem at a fresh user over the
monthly limit. -/
theorem c4_witness :
    handle_process (AppState.mk (fun n => CircuitBreaker.init n) [] []) 4 9
        false (some "hi") "google" (fun _ => Except.ok []) (Except.ok ()) =
      ({ AppState.mk (fun n => CircuitBreaker.init n) [] [] with
          rate_limit_store := (rate_limit_check [] 4 9).1 },
       usage_limit_response, []) :=
  c4_theorem (AppState.mk (fun n => CircuitBreaker.init n) [] []) 4 9
    (some "hi") "google" (fun _ => Except.ok []) (Except.ok ()) (by decide)

/-- Claim C10: track_usage never raises — for every starting table and
every outcome of the database insert it returns normally (first
conjunct), and a failing insert changes neither the response nor the
set of provider calls made, compared with the same request whose insert
succeeds (second conjunct). -/
theorem c10_theorem :
    (∀ (db : List UsageRow) (ins : Except Exc Unit) (row : UsageRow),
      ∃ db2, track_usage db ins row = Except.ok db2) ∧
    (∀ (st : AppState) (uid : Nat) (now : Int) (usage_ok : Bool)
        (prompt : Option String) (pn : String)
        (prov : String → Except Exc Dict) (e : Exc),
      (handle_process st uid now usage_ok prompt pn prov
          (Except.error e)).2 =
        (handle_process st uid now usage_ok prompt pn prov
          (Except.ok ())).2) := by
  constructor
  · intro db ins row
    cases ins with
    | ok u => exact ⟨db ++ [row], rfl⟩
    | error e => exact ⟨db, rfl⟩
  · intro st uid now usage_ok prompt pn prov e
    exact handle_process_resp_ins st uid now usage_ok prompt pn prov
      (Except.error e) (Except.ok ())

/-- A wrapped call that raises always makes execute raise the NameError,
whatever the breaker state. -/
theorem execute_err_result (cb : CircuitBreaker) (e : Exc) :
    (cb.execute (Except.error e)).2.1 =
      Except.error (Exc.nameError "name time is not defined") := by
  unfold CircuitBreaker.execute
  split
  · rfl
  · rfl

/-- Every run of the process body that reaches the provider-call step
either returns some result dict with HTTP 200 and appends exactly one
usage row naming the requested provider, or answers through handle_error
and appends no usage row. -/
theorem body_cases (stb : AppState) (uid : Nat) (p : String) (pn : String)
    (prov : String → Except Exc Dict) (hpn : pn ∈ PROVIDERS) :
    (∃ result : Dict,
      (process_prompt_body stb uid true (some p) pn prov (Except.ok ())).2.1 =
        (result, 200) ∧
      (process_prompt_body stb uid true (some p) pn prov (Except.ok ())).1.usage_db =
        stb.usage_db ++ [UsageRow.mk uid pn "process"
          (dictGet result "response_time" (PVal.i 0))
          (dictGet result "status" (PVal.s "error"))]) ∨
    (∃ e : Exc,
      (process_prompt_body stb uid true (some p) pn prov (Except.ok ())).2.1 =
        handle_error e ∧
      (process_prompt_body stb uid true (some p) pn prov (Except.ok ())).1.usage_db =
        stb.usage_db) := by
  rcases h1 : (stb.breakers pn).execute (prov pn) with ⟨cb1, o1, k1⟩
  cases o1 with
  | ok result =>
    left
    refine ⟨result, ?_, ?_⟩ <;>
      simp [process_prompt_body, hpn, h1, finish_track, track_usage]
  | error exc =>
    by_cases hpo : pn = "openai"
    · right
      subst hpo
      refine ⟨exc, ?_, ?_⟩ <;>
        simp [process_prompt_body, hpn, h1]
    · rcases h2 : ((setBreaker stb.breakers pn cb1) "openai").execute (prov "openai")
        with ⟨cb2, o2, k2⟩
      cases o2 with
      | ok r2 =>
        left
        refine ⟨r2, ?_, ?_⟩ <;>
          simp [process_prompt_body, hpn, h1, h2, hpo, finish_track, track_usage]
      | error exc2 =>
        right
        refine ⟨exc2, ?_, ?_⟩ <;>
          simp [process_prompt_body, hpn, h1, h2, hpo]

/-- When the requested provider call and the openai call both raise (and
the requested provider is not openai), the body answers 500 through
handle_error — the exception reaching it is always the NameError — and
writes no usage row. -/
theorem body_bothfail (stb : AppState) (uid : Nat) (p : String) (pn : String)
    (prov : String → Except Exc Dict) (hpn : pn ∈ PROVIDERS)
    (e1 e2 : Exc) (hf1 : prov pn = Except.error e1)
    (hf2 : prov "openai" = Except.error e2) (hnot : pn ≠ "openai") :
    (process_prompt_body stb uid true (some p) pn prov (Except.ok ())).2.1.2 = 500 ∧
    (process_prompt_body stb uid true (some p) pn prov (Except.ok ())).1.usage_db =
      stb.usage_db := by
  rcases h1 : (stb.breakers pn).execute (prov pn) with ⟨cb1, o1, k1⟩
  have h1e := h1
  rw [hf1] at h1e
  have ho1 : o1 = Except.error (Exc.nameError "name time is not defined") := by
    have hr := execute_err_result (stb.breakers pn) e1
    rw [h1e] at hr
    exact hr
  subst ho1
  rcases h2 : ((setBreaker stb.breakers pn cb1) "openai").execute (prov "openai")
    with ⟨cb2, o2, k2⟩
  have h2e := h2
  rw [hf2] at h2e
  have ho2 : o2 = Except.error (Exc.nameError "name time is not defined") := by
    have hr := execute_err_result ((setBreaker stb.breakers pn cb1) "openai") e2
    rw [h2e] at hr
    exact hr
  subst ho2
  constructor <;> simp [process_prompt_body, hpn, h1, h2, hnot, handle_error]

/-! ## Claims about dispatch orchestration: fallback and recording -/

/-- The openai success dict of src/openai.py lines 68-74, used as the
fallback provider outcome in concrete runs. -/
def sample_success : Dict :=
  [("text", PVal.s "hello"), ("model", PVal.s "gpt-3.5-turbo"),
   ("provider", PVal.s "openai"), ("response_time", PVal.i 1),
   ("status", PVal.s "success")]

/-- A state whose anthropic breaker is Open (5 recorded failures) and
whose other breakers are fresh. -/
def fallbackState : AppState :=
  AppState.mk
    (fun n => if n = "anthropic" then CircuitBreaker.mk "anthropic" 5 60 5 "open" 0
      else CircuitBreaker.init n)
    [] []

/-- Provider outcomes: openai succeeds with sample_success, every other
provider call raises. -/
def fallbackProv : String → Except Exc Dict :=
  fun n => if n = "openai" then Except.ok sample_success
    else Except.error (Exc.other "primary failed")

/-- Claim C1, counterexample: requested provider anthropic with an Open
breaker, openai (the fallback) Closed and succeeding.  The dispatch does
return the fallback's success dict with HTTP 200, but the usage record —
the only place a used-provider name is recorded — names "anthropic", the
originally requested provider, not the fallback, and no
"fallbackOccurred" key exists in the outcome. -/
theorem c1_counterexample :
    (handle_process fallbackState 7 3 true (some "hi") "anthropic" fallbackProv
        (Except.ok ())).2.1 = (sample_success, 200) ∧
    ((handle_process fallbackState 7 3 true (some "hi") "anthropic" fallbackProv
        (Except.ok ())).1.usage_db.map (fun r => r.provider)) = ["anthropic"] ∧
    sample_success.lookup "fallbackOccurred" = none := by
  refine ⟨by decide, by decide, by decide⟩

/-- Claim C1 (amended): when the requested provider's breaker is Open,
the fallback provider's breaker is Closed and the fallback call
succeeds, dispatch returns the fallback's success outcome with HTTP 200
and the fallback call is invoked exactly once (the Open breaker raises
NameError without invoking its own call, which triggers the except-path
fallback of src/app.py lines 124-128); the usage record written names
the originally requested provider, and no fallbackOccurred flag is
produced anywhere. -/
theorem c1_theorem (st : AppState) (uid : Nat) (now : Int) (p : String)
    (pn : String) (d : Dict) (prov : String → Except Exc Dict)
    (hfresh : st.rate_limit_store.lookup uid = none)
    (hpn : pn ∈ PROVIDERS) (hnot : pn ≠ "openai")
    (hopen : (st.breakers pn).state = "open")
    (hcl : (st.breakers "openai").state = "closed")
    (hok : prov "openai" = Except.ok d) :
    (handle_process st uid now true (some p) pn prov (Except.ok ())).2.1 =
      (d, 200) ∧
    (handle_process st uid now true (some p) pn prov (Except.ok ())).2.2 =
      ["openai"] ∧
    (handle_process st uid now true (some p) pn prov (Except.ok ())).1.usage_db =
      st.usage_db ++ [UsageRow.mk uid pn "process"
        (dictGet d "response_time" (PVal.i 0))
        (dictGet d "status" (PVal.s "error"))] := by
  have hrl := rate_admit_fresh st.rate_limit_store uid now hfresh
  have he1 := execute_open_eq (st.breakers pn) (prov pn) hopen
  have he2 := execute_closed_ok_eq (st.breakers "openai") d hcl
  refine ⟨?_, ?_, ?_⟩ <;>
    simp [handle_process, process_prompt_body, finish_track, track_usage,
      hrl, hpn, hnot, Ne.symm hnot, he1, he2, hok, setBreaker]

/-- Claim C1 witness: the amended theorem at the concrete fallback
scenario. -/
theorem c1_witness :
    (handle_process fallbackState 7 3 true (some "hi") "anthropic" fallbackProv
        (Except.ok ())).2.1 = (sample_success, 200) ∧
    (handle_process fallbackState 7 3 true (some "hi") "anthropic" fallbackProv
        (Except.ok ())).2.2 = ["openai"] ∧
    (handle_process fallbackState 7 3 true (some "hi") "anthropic" fallbackProv
        (Except.ok ())).1.usage_db =
      fallbackState.usage_db ++ [UsageRow.mk 7 "anthropic" "process"
        (dictGet sample_success "response_time" (PVal.i 0))
        (dictGet sample_success "status" (PVal.s "error"))] :=
  c1_theorem fallbackState 7 3 "hi" "anthropic" sample_success fallbackProv
    (by decide) (by decide) (by decide) (by decide) (by decide) rfl

/-- All breakers fresh (closed); both provider calls raise. -/
def bothFailState : AppState :=
  AppState.mk (fun n => CircuitBreaker.init n) [] []

/-- Provider outcomes for the both-fail scenario: every call raises. -/
def bothFailProv : String → Except Exc Dict :=
  fun _ => Except.error (Exc.other "upstream failed")

/-- Claim C3, counterexample: a dispatch that reaches the provider-call
step, in which the requested provider call raises and the fallback call
also raises, returns an error (HTTP 500) with ZERO usage rows written —
not the exactly-one record with the requested provider name that the
claim asserts for this exit path. -/
theorem c3_counterexample :
    (handle_process bothFailState 1 0 true (some "hi") "anthropic" bothFailProv
        (Except.ok ())).2.1.2 = 500 ∧
    (handle_process bothFailState 1 0 true (some "hi") "anthropic" bothFailProv
        (Except.ok ())).1.usage_db = [] ∧
    (handle_process bothFailState 1 0 true (some "hi") "anthropic" bothFailProv
        (Except.ok ())).1.usage_db.length ≠ 1 := by
  refine ⟨by decide, by decide, by decide⟩

/-- Claim C3 (amended): per dispatch that reaches the provider-call step
(usage gate passed, prompt present, provider registered, insert
succeeding), at most one usage row is written; exactly one row is
written precisely when dispatch answers HTTP 200 (a result was returned,
possibly an error-status dict); and when the requested provider call and
the fallback call both raise (requested provider not the fallback),
dispatch answers 500 through handle_error and no usage row is written. -/
theorem c3_theorem (st : AppState) (uid : Nat) (now : Int) (p : String)
    (pn : String) (prov : String → Except Exc Dict)
    (hadm : (rate_limit_check st.rate_limit_store uid now).2 = true)
    (hpn : pn ∈ PROVIDERS) :
    ((handle_process st uid now true (some p) pn prov (Except.ok ())).1.usage_db.length
        ≤ st.usage_db.length + 1) ∧
    ((handle_process st uid now true (some p) pn prov (Except.ok ())).2.1.2 = 200 ↔
      (handle_process st uid now true (some p) pn prov (Except.ok ())).1.usage_db.length
        = st.usage_db.length + 1) ∧
    (∀ e1 e2 : Exc, prov pn = Except.error e1 → prov "openai" = Except.error e2 →
      pn ≠ "openai" →
      (handle_process st uid now true (some p) pn prov (Except.ok ())).2.1.2 = 500 ∧
      (handle_process st uid now true (some p) pn prov (Except.ok ())).1.usage_db
        = st.usage_db) := by
  have hred : handle_process st uid now true (some p) pn prov (Except.ok ()) =
      process_prompt_body
        { st with rate_limit_store := (rate_limit_check st.rate_limit_store uid now).1 }
        uid true (some p) pn prov (Except.ok ()) := by
    unfold handle_process
    rw [if_pos hadm]
  rw [hred]
  refine ⟨?_, ?_, ?_⟩
  · rcases body_cases
      { st with rate_limit_store := (rate_limit_check st.rate_limit_store uid now).1 }
      uid p pn prov hpn with ⟨result, hresp, husage⟩ | ⟨e, hresp, husage⟩
    · rw [husage]
      simp
    · rw [husage]
      simp
  · rcases body_cases
      { st with rate_limit_store := (rate_limit_check st.rate_limit_store uid now).1 }
      uid p pn prov hpn with ⟨result, hresp, husage⟩ | ⟨e, hresp, husage⟩
    · rw [hresp, husage]
      simp
    · rw [hresp, husage]
      constructor
      · intro h
        exact absurd h (handle_error_code e)
      · intro h
        exfalso
        simp only [AppState.usage_db] at h
        omega
  · intro e1 e2 hf1 hf2 hnot
    exact body_bothfail
      { st with rate_limit_store := (rate_limit_check st.rate_limit_store uid now).1 }
      uid p pn prov hpn e1 e2 hf1 hf2 hnot

/-- Claim C3 witness: the amended theorem applied at the concrete
both-fail scenario — the at-most-one bound and the no-record-on-500
clause, hypotheses discharged concretely. -/
theorem c3_witness :
    ((handle_process bothFailState 1 0 true (some "hi") "anthropic" bothFailProv
        (Except.ok ())).1.usage_db.length ≤ bothFailState.usage_db.length + 1) ∧
    ((handle_process bothFailState 1 0 true (some "hi") "anthropic" bothFailProv
        (Except.ok ())).2.1.2 = 500 ∧
     (handle_process bothFailState 1 0 true (some "hi") "anthropic" bothFailProv
        (Except.ok ())).1.usage_db = bothFailState.usage_db) :=
  ⟨(c3_theorem bothFailState 1 0 "hi" "anthropic" bothFailProv (by decide)
      (by decide)).1,
   (c3_theorem bothFailState 1 0 "hi" "anthropic" bothFailProv (by decide)
      (by decide)).2.2 (Exc.other "upstream failed") (Exc.other "upstream failed")
      rfl rfl (by decide)⟩

end MultiAI
